import Mathlib

/-!
Verification of the `Printer` / `PrinterCommand` core of
`src/web/app/models.py` (TheSpaghettiDetective web app).

The Django model methods are embedded as pure Lean functions over an
explicit state.  Database timestamps (`DateTimeField`) are modelled as
`Option Nat` (None / a concrete instant); `datetime.now(timezone.utc)`
becomes an explicit `now : Nat` argument.  The `PrinterCommand` table is
a list ordered by creation time; Django `queryset.update(...)` is a
`List.map` over the matching rows and `objects.create(...)` an append.
`self.save()` is tracked by a save counter so that claims about
"nothing is persisted" are expressible.
-/

namespace Spaghetti

/-- Status of a `PrinterCommand` row (`COMMAND_STATUSES` in models.py). -/
inductive CommandStatus where
  | PENDING
  | SENT
  | ABORTED
deriving DecidableEq, Repr

/-- Argument values appearing in command arg maps, e.g.
`{'heater': 'tools', 'target': 0, 'save': True}` in
`Printer.pause_print_on_failure`. -/
inductive ArgVal where
  | s (v : String)
  | n (v : Int)
  | b (v : Bool)
deriving DecidableEq, Repr

/-- The argument map of a command (`args` in `queue_octoprint_command`),
kept structured rather than JSON-serialized; the core treats it as opaque. -/
abbrev Args := List (String × ArgVal)

/-- A row of the `PrinterCommand` table.  The Python field
`command = json.dumps({'cmd': command, 'args': args})` is kept as the
structured pair `(cmd, args)`. -/
structure PrinterCommand where
  printer : Nat
  cmd : String
  args : Args
  status : CommandStatus
deriving DecidableEq, Repr

/-- The mutable fields of one `Printer` row that the claims concern. -/
structure Printer where
  id : Nat
  current_print_filename : Option String
  current_print_started_at : Option Nat
  current_print_alerted_at : Option Nat
  alert_acknowledged_at : Option Nat
  tools_off_on_pause : Bool
  bed_off_on_pause : Bool
deriving DecidableEq, Repr

/-- The state an operation acts on: the printer row, the whole
`PrinterCommand` table (all printers), and a count of `self.save()`
calls performed (to express persistence claims). -/
structure World where
  printer : Printer
  commands : List PrinterCommand
  saves : Nat
deriving DecidableEq, Repr

/-- One row under `PrinterCommand.objects.filter(printer=self,
status=PENDING).update(status=ABORTED)`. -/
def abortIfPending (pid : Nat) (c : PrinterCommand) : PrinterCommand :=
  if c.printer = pid ∧ c.status = CommandStatus.PENDING then
    { c with status := CommandStatus.ABORTED }
  else c

/-- Embeds `Printer.queue_octoprint_command(command, args, abort_existing)`:
if `abort_existing`, bulk-update this printer's PENDING commands to
ABORTED; then create a new PENDING command row. -/
def queue_octoprint_command (pid : Nat) (cmds : List PrinterCommand)
    (command : String) (args : Args) (abort_existing : Bool) :
    List PrinterCommand :=
  let cmds' := if abort_existing then cmds.map (abortIfPending pid) else cmds
  cmds' ++ [⟨pid, command, args, CommandStatus.PENDING⟩]

/-- Lift `queue_octoprint_command` to a `World` transition. -/
def queueCmd (w : World) (command : String) (args : Args)
    (abort_existing : Bool) : World :=
  { w with commands := queue_octoprint_command w.printer.id w.commands command args abort_existing }

/-- Embeds `Printer.set_current_print(filename)`: only when the filename differs
from the current one, set it, stamp `started_at = now`, clear the alert
timestamps, and save. -/
def set_current_print (w : World) (filename : Option String) (now : Nat) :
    World :=
  if filename ≠ w.printer.current_print_filename then
    { w with
        printer := { w.printer with
          current_print_filename := filename,
          current_print_started_at := some now,
          current_print_alerted_at := none,
          alert_acknowledged_at := none },
        saves := w.saves + 1 }
  else w

/-- Embeds `Printer.unset_current_print()`: only when a print is tracked, clear
all four print/alert fields and save. -/
def unset_current_print (w : World) : World :=
  if w.printer.current_print_filename ≠ none then
    { w with
        printer := { w.printer with
          current_print_filename := none,
          current_print_started_at := none,
          current_print_alerted_at := none,
          alert_acknowledged_at := none },
        saves := w.saves + 1 }
  else w

/-- Embeds `Printer.set_alert()`: stamp `current_print_alerted_at = now`, clear
the acknowledgment, save. -/
def set_alert (w : World) (now : Nat) : World :=
  { w with
      printer := { w.printer with
        current_print_alerted_at := some now,
        alert_acknowledged_at := none },
      saves := w.saves + 1 }

/-- Embeds `Printer.clear_alert()`: clear `current_print_alerted_at`, stamp
`alert_acknowledged_at = now`, save. -/
def clear_alert (w : World) (now : Nat) : World :=
  { w with
      printer := { w.printer with
        current_print_alerted_at := none,
        alert_acknowledged_at := some now },
      saves := w.saves + 1 }

/-- Embeds `Printer.resume_print(mute_alert)`: stamp the acknowledgment and
save; unless muted, also `clear_alert()`; then enqueue `restore_temps`
(with the DEFAULT `abort_existing=True`) and `resume`
(`abort_existing=False`). -/
def resume_print (w : World) (mute_alert : Bool) (now : Nat) : World :=
  let w1 : World :=
    { w with
        printer := { w.printer with alert_acknowledged_at := some now },
        saves := w.saves + 1 }
  let w2 := if mute_alert then w1 else clear_alert w1 now
  let w3 := queueCmd w2 "restore_temps" [] true
  queueCmd w3 "resume" [] false

/-- Embeds `Printer.pause_print()`: enqueue `pause` with the default
`abort_existing=True`. -/
def pause_print (w : World) : World :=
  queueCmd w "pause" [] true

/-- The arg map `{'heater': h, 'target': 0, 'save': True}` used by
`pause_print_on_failure`. -/
def setTempsArgs (h : String) : Args :=
  [("heater", ArgVal.s h), ("target", ArgVal.n 0), ("save", ArgVal.b true)]

/-- Embeds `Printer.pause_print_on_failure()`: enqueue `pause` (aborting), then
conditionally the two non-aborting `set_temps` commands per policy. -/
def pause_print_on_failure (w : World) : World :=
  let w1 := queueCmd w "pause" [] true
  let w2 :=
    if w.printer.tools_off_on_pause then
      queueCmd w1 "set_temps" (setTempsArgs "tools") false
    else w1
  if w.printer.bed_off_on_pause then
    queueCmd w2 "set_temps" (setTempsArgs "bed") false
  else w2

/-- Embeds `Printer.cancel_print()`: stamp the acknowledgment, save, enqueue
`cancel` with the default `abort_existing=True`. -/
def cancel_print (w : World) (now : Nat) : World :=
  let w1 : World :=
    { w with
        printer := { w.printer with alert_acknowledged_at := some now },
        saves := w.saves + 1 }
  queueCmd w1 "cancel" [] true

/-! ## StatusCache reader (`Printer.status`)

The telemetry snapshot is a flat mapping of string fields written by the
external producer.  `lib.redis.printer_status_get` and
`lib.utils.dict_or_none` are not part of `src/`, so they are modelled
from the spec; `Printer.status` itself is translated from models.py. -/

/-- A telemetry field value after the reader's field-level coercion:
either the raw stored string or the coerced integer. -/
inductive StatusVal where
  | raw (v : String)
  | int (v : Int)
deriving DecidableEq, Repr

/-- Modelled from the spec: `lib.redis.printer_status_get` (module
`lib.redis`, absent from `src/`) reads the device's StatusCache entry,
returning the stored flat mapping, or an empty mapping when no snapshot
has ever been written ("no data yet"). -/
def printer_status_get (cache : Option (List (String × String))) :
    List (String × String) :=
  cache.getD []

/-- Modelled from the spec: `lib.utils.dict_or_none` (module `lib.utils`,
absent from `src/`) turns an empty mapping into the distinguished absent
result (`None`) and returns a non-empty mapping unchanged. -/
def dict_or_none (d : List (String × StatusVal)) :
    Option (List (String × StatusVal)) :=
  if d.isEmpty then none else some d

/-- Decimal digit value of a character, else failure. -/
def digitVal (c : Char) : Option Nat :=
  if '0' ≤ c ∧ c ≤ '9' then some (c.toNat - 48) else none

/-- Nonempty all-digit character list to its value, else failure. -/
def parseDigits : List Char → Option Nat
  | [] => none
  | ds =>
    ds.foldl (fun acc c => acc.bind fun a => (digitVal c).map fun d => 10 * a + d)
      (some 0)

/-- Modelled from the spec: the builtin Python `int(str)` coercion used
by the status reader (not part of `src/`) — an optional sign followed by
at least one decimal digit yields the integer; any other string raises
`ValueError`, modelled as `none`. -/
def pyInt (s : String) : Option Int :=
  match s.data with
  | Char.ofNat 45 :: ds => (parseDigits ds).map (fun m => -(m : Int))
  | Char.ofNat 43 :: ds => (parseDigits ds).map (fun m => (m : Int))
  | ds => (parseDigits ds).map (fun m => (m : Int))

/-- Embeds `Printer.status`: read the snapshot; if a `seconds_left` field is
present, coerce it with Python `int(...)` — a malformed value raises,
modelled as `Except.error` carrying the offending string; finally apply
`dict_or_none`. -/
def status (cache : Option (List (String × String))) :
    Except String (Option (List (String × StatusVal))) :=
  match (printer_status_get cache).lookup "seconds_left" with
  | none =>
      Except.ok (dict_or_none ((printer_status_get cache).map
        fun kv => (kv.1, StatusVal.raw kv.2)))
  | some v =>
      match pyInt v with
      | none => Except.error v
      | some n =>
          Except.ok (dict_or_none ((printer_status_get cache).map fun kv =>
            if kv.1 = "seconds_left" then (kv.1, StatusVal.int n)
            else (kv.1, StatusVal.raw kv.2)))

theorem printer_status_get_some (d : List (String × String)) :
    printer_status_get (some d) = d := rfl

/-! ## Reachability

The public `Printer` operations as a step relation, for stating
invariants over every reachable aggregate state. -/

/-- One application of a public `Printer` operation. -/
inductive Step : World → World → Prop where
  | set_current (w : World) (f : Option String) (now : Nat) :
      Step w (set_current_print w f now)
  | unset_current (w : World) : Step w (unset_current_print w)
  | resume (w : World) (m : Bool) (now : Nat) : Step w (resume_print w m now)
  | pause (w : World) : Step w (pause_print w)
  | pause_fail (w : World) : Step w (pause_print_on_failure w)
  | cancel (w : World) (now : Nat) : Step w (cancel_print w now)
  | alert (w : World) (now : Nat) : Step w (set_alert w now)
  | clear (w : World) (now : Nat) : Step w (clear_alert w now)

/-- A freshly registered printer: all four nullable print/alert
timestamps are null (`DateTimeField(null=True)` defaults). -/
def initialWorld (pid : Nat) (tools bed : Bool) (cs : List PrinterCommand) :
    World :=
  ⟨⟨pid, none, none, none, none, tools, bed⟩, cs, 0⟩

/-- States reachable from a fresh printer by public operations. -/
inductive Reachable : World → Prop where
  | init (pid : Nat) (tools bed : Bool) (cs : List PrinterCommand) :
      Reachable (initialWorld pid tools bed cs)
  | step (w w' : World) : Reachable w → Step w w' → Reachable w'

/-! ## Helper lemmas -/

/-- Decidable test for "PENDING command of printer `pid`". -/
def pendingFor (pid : Nat) (c : PrinterCommand) : Bool :=
  decide (c.printer = pid ∧ c.status = CommandStatus.PENDING)

theorem pendingFor_true_iff (pid : Nat) (c : PrinterCommand) :
    pendingFor pid c = true ↔
      (c.printer = pid ∧ c.status = CommandStatus.PENDING) := by
  simp [pendingFor]

theorem abortIfPending_not_pending (pid : Nat) (c : PrinterCommand) :
    pendingFor pid (abortIfPending pid c) = false := by
  unfold abortIfPending
  split
  case isTrue h => simp [pendingFor]
  case isFalse h => simpa [pendingFor] using h

theorem abortIfPending_eq_self (pid : Nat) (c : PrinterCommand)
    (hc : ¬(c.printer = pid ∧ c.status = CommandStatus.PENDING)) :
    abortIfPending pid c = c := by
  unfold abortIfPending
  simp [hc]

theorem filter_map_abortIfPending (pid : Nat) (cmds : List PrinterCommand) :
    (cmds.map (abortIfPending pid)).filter (pendingFor pid) = [] := by
  rw [List.filter_eq_nil_iff]
  intro c hc
  rcases List.mem_map.mp hc with ⟨c0, _, rfl⟩
  simp [abortIfPending_not_pending]

theorem queue_true_filter_pending (pid : Nat) (cmds : List PrinterCommand)
    (command : String) (args : Args) :
    (queue_octoprint_command pid cmds command args true).filter (pendingFor pid)
      = [⟨pid, command, args, CommandStatus.PENDING⟩] := by
  show ((cmds.map (abortIfPending pid)) ++
      [(⟨pid, command, args, CommandStatus.PENDING⟩ : PrinterCommand)]).filter
        (pendingFor pid) = _
  rw [List.filter_append, filter_map_abortIfPending]
  simp [pendingFor]

/-! ## Claim theorems -/

/-- C1: after `queue_octoprint_command` with `abort_existing=true`, every
command of that printer that was PENDING before the call is ABORTED
afterwards (same position), and the printer's PENDING commands are
exactly the single newly created one. -/
theorem queue_abort_single_pending (pid : Nat) (cmds : List PrinterCommand)
    (command : String) (args : Args) :
    (∀ i (h : i < cmds.length), cmds[i].printer = pid →
      cmds[i].status = CommandStatus.PENDING →
      (queue_octoprint_command pid cmds command args true)[i]? =
        some { cmds[i] with status := CommandStatus.ABORTED }) ∧
    (queue_octoprint_command pid cmds command args true).filter (pendingFor pid)
      = [⟨pid, command, args, CommandStatus.PENDING⟩] := by
  constructor
  · intro i h hp hs
    show ((cmds.map (abortIfPending pid)) ++
        [(⟨pid, command, args, CommandStatus.PENDING⟩ : PrinterCommand)])[i]? = _
    rw [List.getElem?_append_left (by simpa using h), List.getElem?_map,
      List.getElem?_eq_getElem h]
    simp [abortIfPending, hp, hs]
  · exact queue_true_filter_pending pid cmds command args

/-- C1 witness: concrete instance, one prior PENDING command gets
ABORTED and the new command is the only PENDING one. -/
theorem queue_abort_single_pending_witness :
    (queue_octoprint_command 1 [⟨1, "pause", [], CommandStatus.PENDING⟩]
      "cancel" [] true)[0]? = some ⟨1, "pause", [], CommandStatus.ABORTED⟩ ∧
    (queue_octoprint_command 1 [⟨1, "pause", [], CommandStatus.PENDING⟩]
      "cancel" [] true).filter (pendingFor 1)
      = [⟨1, "cancel", [], CommandStatus.PENDING⟩] := by
  refine ⟨?_, (queue_abort_single_pending 1 _ "cancel" []).2⟩
  exact (queue_abort_single_pending 1
    [⟨1, "pause", [], CommandStatus.PENDING⟩] "cancel" []).1 0
    (by decide) rfl rfl

/-- C9: `queue_octoprint_command` leaves every pre-existing SENT or
ABORTED command unchanged, leaves every command of another printer
unchanged, and with `abort_existing=false` appends the new command
without modifying any pre-existing command at all. -/
theorem queue_frame (pid : Nat) (cmds : List PrinterCommand)
    (command : String) (args : Args) (b : Bool) :
    (∀ i (h : i < cmds.length),
      ((cmds[i].status = CommandStatus.SENT ∨
          cmds[i].status = CommandStatus.ABORTED) →
        (queue_octoprint_command pid cmds command args b)[i]? = some cmds[i]) ∧
      (cmds[i].printer ≠ pid →
        (queue_octoprint_command pid cmds command args b)[i]? = some cmds[i])) ∧
    (queue_octoprint_command pid cmds command args false =
      cmds ++ [⟨pid, command, args, CommandStatus.PENDING⟩]) := by
  constructor
  · intro i h
    cases b with
    | false =>
      constructor <;> intro _ <;>
        · show (cmds ++ [(⟨pid, command, args, CommandStatus.PENDING⟩ :
              PrinterCommand)])[i]? = some cmds[i]
          rw [List.getElem?_append_left h, List.getElem?_eq_getElem h]
    | true =>
      have key : ∀ hc : ¬(cmds[i].printer = pid ∧
          cmds[i].status = CommandStatus.PENDING),
          (queue_octoprint_command pid cmds command args true)[i]? =
            some cmds[i] := by
        intro hc
        show ((cmds.map (abortIfPending pid)) ++
            [(⟨pid, command, args, CommandStatus.PENDING⟩ : PrinterCommand)])[i]? = _
        rw [List.getElem?_append_left (by simpa using h), List.getElem?_map,
          List.getElem?_eq_getElem h]
        simp [abortIfPending_eq_self pid _ hc]
      constructor
      · rintro (hs | hs) <;> exact key (by simp [hs])
      · intro hp; exact key (by simp [hp])
  · rfl

/-- C9 witness: concrete instance — a SENT command and another printer's
PENDING command survive an aborting enqueue; a non-aborting enqueue is a
pure append. -/
theorem queue_frame_witness :
    (queue_octoprint_command 1
      [⟨1, "pause", [], CommandStatus.SENT⟩, ⟨2, "resume", [], CommandStatus.PENDING⟩]
      "cancel" [] true)[0]? = some ⟨1, "pause", [], CommandStatus.SENT⟩ ∧
    (queue_octoprint_command 1
      [⟨1, "pause", [], CommandStatus.SENT⟩, ⟨2, "resume", [], CommandStatus.PENDING⟩]
      "cancel" [] true)[1]? = some ⟨2, "resume", [], CommandStatus.PENDING⟩ ∧
    (queue_octoprint_command 1
      [⟨1, "pause", [], CommandStatus.SENT⟩, ⟨2, "resume", [], CommandStatus.PENDING⟩]
      "cancel" [] false =
      [⟨1, "pause", [], CommandStatus.SENT⟩, ⟨2, "resume", [], CommandStatus.PENDING⟩,
        ⟨1, "cancel", [], CommandStatus.PENDING⟩]) := by
  refine ⟨?_, ?_, ?_⟩
  · exact ((queue_frame 1 _ "cancel" [] true).1 0 (by decide)).1 (Or.inl rfl)
  · exact ((queue_frame 1
      [⟨1, "pause", [], CommandStatus.SENT⟩, ⟨2, "resume", [], CommandStatus.PENDING⟩]
      "cancel" [] true).1 1 (by decide)).2 (by decide)
  · exact (queue_frame 1 _ "cancel" [] true).2

/-- C4: `set_current_print` with the filename already current is a
complete no-op — no field changes, no save, no command enqueued. -/
theorem set_current_print_same_noop (w : World) (f : String) (now : Nat)
    (h : w.printer.current_print_filename = some f) :
    set_current_print w (some f) now = w := by
  simp [set_current_print, h]

/-- C4 witness: concrete no-op instance. -/
theorem set_current_print_same_noop_witness :
    set_current_print
      ⟨⟨1, some "a.gcode", some 2, none, none, true, false⟩, [], 4⟩
      (some "a.gcode") 9
      = ⟨⟨1, some "a.gcode", some 2, none, none, true, false⟩, [], 4⟩ :=
  set_current_print_same_noop
    ⟨⟨1, some "a.gcode", some 2, none, none, true, false⟩, [], 4⟩
    "a.gcode" 9 rfl

/-- C5: `pause_print_on_failure` with both heater-off policies enabled
enqueues exactly the aborting `pause` then the two non-aborting
`set_temps` commands (tools, then bed); with both disabled, exactly the
aborting `pause`. -/
theorem pause_print_on_failure_commands (w : World) :
    (w.printer.tools_off_on_pause = true ∧ w.printer.bed_off_on_pause = true →
      (pause_print_on_failure w).commands =
        w.commands.map (abortIfPending w.printer.id) ++
          [⟨w.printer.id, "pause", [], CommandStatus.PENDING⟩,
           ⟨w.printer.id, "set_temps", setTempsArgs "tools", CommandStatus.PENDING⟩,
           ⟨w.printer.id, "set_temps", setTempsArgs "bed", CommandStatus.PENDING⟩]) ∧
    (w.printer.tools_off_on_pause = false ∧ w.printer.bed_off_on_pause = false →
      (pause_print_on_failure w).commands =
        w.commands.map (abortIfPending w.printer.id) ++
          [⟨w.printer.id, "pause", [], CommandStatus.PENDING⟩]) := by
  constructor
  · rintro ⟨ht, hb⟩
    simp [pause_print_on_failure, queueCmd, queue_octoprint_command, ht, hb]
  · rintro ⟨ht, hb⟩
    simp [pause_print_on_failure, queueCmd, queue_octoprint_command, ht, hb]

/-- C5 witness: concrete instances for the 3-command and 1-command
cases. -/
theorem pause_print_on_failure_commands_witness :
    (pause_print_on_failure ⟨⟨1, none, none, none, none, true, true⟩,
        [], 0⟩).commands =
      [⟨1, "pause", [], CommandStatus.PENDING⟩,
       ⟨1, "set_temps", setTempsArgs "tools", CommandStatus.PENDING⟩,
       ⟨1, "set_temps", setTempsArgs "bed", CommandStatus.PENDING⟩] ∧
    (pause_print_on_failure ⟨⟨2, none, none, none, none, false, false⟩,
        [], 0⟩).commands =
      [⟨2, "pause", [], CommandStatus.PENDING⟩] :=
  ⟨(pause_print_on_failure_commands
      ⟨⟨1, none, none, none, none, true, true⟩, [], 0⟩).1 ⟨rfl, rfl⟩,
   (pause_print_on_failure_commands
      ⟨⟨2, none, none, none, none, false, false⟩, [], 0⟩).2 ⟨rfl, rfl⟩⟩

/-- C7: `set_alert` always sets `current_print_alerted_at` to the current
time and clears `alert_acknowledged_at`, in every state (re-raising
refreshes the timestamp and clears any acknowledgment). -/
theorem set_alert_effects (w : World) (now : Nat) :
    (set_alert w now).printer.current_print_alerted_at = some now ∧
    (set_alert w now).printer.alert_acknowledged_at = none := by
  simp [set_alert]

/-- C10: `set_current_print(None)` on a tracking printer clears the
filename yet stamps `current_print_started_at = now` (not a stop), and
`unset_current_print` on a non-tracking printer is a complete no-op. -/
theorem set_none_not_stop_and_unset_noop (w : World) (now : Nat) :
    (w.printer.current_print_filename ≠ none →
      (set_current_print w none now).printer.current_print_filename = none ∧
      (set_current_print w none now).printer.current_print_started_at = some now) ∧
    (w.printer.current_print_filename = none → unset_current_print w = w) := by
  constructor
  · intro hf
    rw [set_current_print, if_pos (by simpa using Ne.symm hf)]
    exact ⟨rfl, rfl⟩
  · intro hf
    simp [unset_current_print, hf]

/-- C10 witness: concrete instances of both halves. -/
theorem set_none_not_stop_and_unset_noop_witness :
    ((set_current_print ⟨⟨1, some "a.gcode", some 2, none, none, true, false⟩,
        [], 0⟩ none 9).printer.current_print_filename = none ∧
      (set_current_print ⟨⟨1, some "a.gcode", some 2, none, none, true, false⟩,
        [], 0⟩ none 9).printer.current_print_started_at = some 9) ∧
    unset_current_print ⟨⟨1, none, none, none, none, true, false⟩, [], 3⟩ =
      ⟨⟨1, none, none, none, none, true, false⟩, [], 3⟩ :=
  ⟨(set_none_not_stop_and_unset_noop
      ⟨⟨1, some "a.gcode", some 2, none, none, true, false⟩, [], 0⟩ 9).1
      (by simp),
   (set_none_not_stop_and_unset_noop
      ⟨⟨1, none, none, none, none, true, false⟩, [], 3⟩ 0).2 rfl⟩

/-- C6: when the printer's PENDING commands are exactly one `pause`
command, `cancel_print` aborts it, leaves `cancel` as the single new
PENDING command, and stamps the acknowledgment. -/
theorem cancel_print_scenario (w : World) (now : Nat) (pc : PrinterCommand)
    (hfil : w.commands.filter (pendingFor w.printer.id) = [pc])
    (hcmd : pc.cmd = "pause") :
    (⟨w.printer.id, "pause", pc.args, CommandStatus.ABORTED⟩ : PrinterCommand) ∈
      (cancel_print w now).commands ∧
    (cancel_print w now).commands.filter (pendingFor w.printer.id) =
      [⟨w.printer.id, "cancel", [], CommandStatus.PENDING⟩] ∧
    (cancel_print w now).printer.alert_acknowledged_at = some now := by
  have hmem : pc ∈ w.commands.filter (pendingFor w.printer.id) := by
    rw [hfil]; exact List.mem_singleton.mpr rfl
  have hpc1 : pc ∈ w.commands := List.mem_of_mem_filter hmem
  have hpc2 := (pendingFor_true_iff _ _).mp (List.of_mem_filter hmem)
  refine ⟨?_, ?_, rfl⟩
  · show _ ∈ (w.commands.map (abortIfPending w.printer.id)) ++
      [(⟨w.printer.id, "cancel", [], CommandStatus.PENDING⟩ : PrinterCommand)]
    refine List.mem_append_left _ ?_
    refine List.mem_map.mpr ⟨pc, hpc1, ?_⟩
    unfold abortIfPending
    rw [if_pos hpc2]
    cases pc with
    | mk p c a st => simp_all
  · exact queue_true_filter_pending w.printer.id w.commands "cancel" []

/-- C6 witness: concrete instance of the spec scenario. -/
theorem cancel_print_scenario_witness :
    (⟨1, "pause", ([] : Args), CommandStatus.ABORTED⟩ : PrinterCommand) ∈
      (cancel_print ⟨⟨1, some "a.gcode", some 2, some 3, none, true, false⟩,
        [⟨1, "pause", [], CommandStatus.PENDING⟩], 0⟩ 9).commands ∧
    (cancel_print ⟨⟨1, some "a.gcode", some 2, some 3, none, true, false⟩,
        [⟨1, "pause", [], CommandStatus.PENDING⟩], 0⟩ 9).commands.filter
      (pendingFor 1) = [⟨1, "cancel", [], CommandStatus.PENDING⟩] ∧
    (cancel_print ⟨⟨1, some "a.gcode", some 2, some 3, none, true, false⟩,
        [⟨1, "pause", [], CommandStatus.PENDING⟩], 0⟩ 9).printer.alert_acknowledged_at
      = some 9 :=
  cancel_print_scenario
    ⟨⟨1, some "a.gcode", some 2, some 3, none, true, false⟩,
      [⟨1, "pause", [], CommandStatus.PENDING⟩], 0⟩ 9
    ⟨1, "pause", [], CommandStatus.PENDING⟩ (by decide) rfl

/-- C3 counterexample: a pre-existing PENDING command does NOT keep its
status across `resume_print(mute_alert=false)` — the first enqueue
(`restore_temps`) uses the default `abort_existing=True` and aborts it. -/
theorem resume_print_nonaborting_cex :
    ((⟨⟨1, some "a.gcode", some 1, some 2, none, true, false⟩,
        [⟨1, "pause", [], CommandStatus.PENDING⟩], 0⟩ : World).commands.map
        PrinterCommand.status = [CommandStatus.PENDING]) ∧
    ((resume_print ⟨⟨1, some "a.gcode", some 1, some 2, none, true, false⟩,
        [⟨1, "pause", [], CommandStatus.PENDING⟩], 0⟩ false 7).commands.map
        PrinterCommand.status =
      [CommandStatus.ABORTED, CommandStatus.PENDING, CommandStatus.PENDING]) :=
  ⟨rfl, rfl⟩

/-- C3 (amended): `resume_print(mute_alert=false)` stamps the
acknowledgment, clears the alert timestamp, and enqueues first
`restore_temps` with `abort_existing=true` (aborting every pre-existing
PENDING command of the printer) and then `resume` with
`abort_existing=false`. -/
theorem resume_print_amended (w : World) (now : Nat) :
    (resume_print w false now).printer.alert_acknowledged_at = some now ∧
    (resume_print w false now).printer.current_print_alerted_at = none ∧
    (resume_print w false now).commands =
      w.commands.map (abortIfPending w.printer.id) ++
        [⟨w.printer.id, "restore_temps", [], CommandStatus.PENDING⟩,
         ⟨w.printer.id, "resume", [], CommandStatus.PENDING⟩] := by
  refine ⟨rfl, rfl, ?_⟩
  simp [resume_print, clear_alert, queueCmd, queue_octoprint_command]

/-- C2 counterexample: from the reachable freshly-registered state,
`set_current_print` with a filename yields a state with non-null
filename and started-at but null alerted-at, breaking the claimed
four-way iff. -/
theorem printer_four_field_iff_cex :
    Reachable (initialWorld 1 true false []) ∧
    ¬(((set_current_print (initialWorld 1 true false []) (some "a.gcode")
          5).printer.current_print_filename = none ↔
        (set_current_print (initialWorld 1 true false []) (some "a.gcode")
          5).printer.current_print_started_at = none) ∧
      ((set_current_print (initialWorld 1 true false []) (some "a.gcode")
          5).printer.current_print_started_at = none ↔
        (set_current_print (initialWorld 1 true false []) (some "a.gcode")
          5).printer.current_print_alerted_at = none) ∧
      ((set_current_print (initialWorld 1 true false []) (some "a.gcode")
          5).printer.current_print_alerted_at = none ↔
        (set_current_print (initialWorld 1 true false []) (some "a.gcode")
          5).printer.alert_acknowledged_at = none)) :=
  ⟨Reachable.init 1 true false [], by decide⟩

theorem step_preserves_fs (w w' : World) (hs : Step w w')
    (ih : w.printer.current_print_filename ≠ none →
      w.printer.current_print_started_at ≠ none) :
    w'.printer.current_print_filename ≠ none →
    w'.printer.current_print_started_at ≠ none := by
  cases hs with
  | set_current f now =>
    unfold set_current_print
    split
    · intro _; simp
    · exact ih
  | unset_current =>
    unfold unset_current_print
    split
    · intro hf; simp at hf
    · exact ih
  | resume m now => cases m <;> exact ih
  | pause => exact ih
  | pause_fail =>
    have h1 : (pause_print_on_failure w).printer = w.printer := by
      simp only [pause_print_on_failure, queueCmd]
      split_ifs <;> rfl
    rw [h1]; exact ih
  | cancel now => exact ih
  | alert now => exact ih
  | clear now => exact ih

/-- C2 (amended): on every reachable aggregate state, a non-null
`current_print_filename` implies a non-null `current_print_started_at`
(only this direction of the claimed equivalences survives; the alert
timestamps decouple from the print fields). -/
theorem reachable_filename_implies_started (w : World) (h : Reachable w)
    (hf : w.printer.current_print_filename ≠ none) :
    w.printer.current_print_started_at ≠ none := by
  revert hf
  induction h with
  | init pid tools bed cs => intro hf; simp [initialWorld] at hf
  | step w w' hr hs ih => exact step_preserves_fs w w' hs ih

/-- C2 witness: the amended invariant at a concrete reachable state with
a tracked print. -/
theorem reachable_filename_implies_started_witness :
    (set_current_print (initialWorld 1 true false []) (some "a.gcode")
      5).printer.current_print_started_at ≠ none :=
  reachable_filename_implies_started _
    (Reachable.step _ _ (Reachable.init 1 true false [])
      (Step.set_current _ (some "a.gcode") 5))
    (by decide)

theorem lookup_map_coerce (data : List (String × String)) (n : Int)
    (s : String) (h : data.lookup "seconds_left" = some s) :
    (data.map fun kv => if kv.1 = "seconds_left" then (kv.1, StatusVal.int n)
      else (kv.1, StatusVal.raw kv.2)).lookup "seconds_left"
      = some (StatusVal.int n) := by
  induction data with
  | nil => simp [List.lookup] at h
  | cons kv rest ih =>
    obtain ⟨k, v⟩ := kv
    by_cases hk : k = "seconds_left"
    · subst hk
      simp [List.lookup]
    · have hbeq : ("seconds_left" == k) = false := by
        simp [Ne.symm hk]
      rw [List.map_cons]
      dsimp only
      rw [if_neg hk]
      simp only [List.lookup, hbeq] at h ⊢
      exact ih h

/-- C8: `Printer.status` returns the distinguished absent result (not an
error) when no snapshot exists; with a snapshot whose `seconds_left`
parses, the field comes back coerced to an integer; with a malformed
`seconds_left`, a coercion error is surfaced — a constructor distinct
from the absent result. -/
theorem status_contract :
    (status none = Except.ok none) ∧
    (∀ (data : List (String × String)) (s : String) (n : Int),
      data.lookup "seconds_left" = some s → pyInt s = some n →
      ∃ out, status (some data) = Except.ok (some out) ∧
        out.lookup "seconds_left" = some (StatusVal.int n)) ∧
    (∀ (data : List (String × String)) (s : String),
      data.lookup "seconds_left" = some s → pyInt s = none →
      status (some data) = Except.error s) ∧
    (∀ s : String,
      (Except.error s :
        Except String (Option (List (String × StatusVal)))) ≠ Except.ok none) := by
  refine ⟨rfl, ?_, ?_, ?_⟩
  · intro data s n hl hn
    refine ⟨data.map fun kv => if kv.1 = "seconds_left" then (kv.1, StatusVal.int n)
        else (kv.1, StatusVal.raw kv.2), ?_, lookup_map_coerce data n s hl⟩
    simp only [status, printer_status_get_some, hl, hn]
    cases data with
    | nil => simp [List.lookup] at hl
    | cons kv rest => simp [dict_or_none]
  · intro data s hl hn
    simp only [status, printer_status_get_some, hl, hn]
  · intro s h
    exact Except.noConfusion h

/-- C8 witness: concrete snapshots — a well-formed and a malformed
`seconds_left`. -/
theorem status_contract_witness :
    (∃ out, status (some [("seconds_left", "123")]) = Except.ok (some out) ∧
      out.lookup "seconds_left" = some (StatusVal.int 123)) ∧
    status (some [("seconds_left", "abc")]) = Except.error "abc" :=
  ⟨status_contract.2.1 [("seconds_left", "123")] "123" 123 (by decide) (by decide),
   status_contract.2.2.1 [("seconds_left", "abc")] "abc" (by decide) (by decide)⟩

end Spaghetti
